import Mathlib

/-!
Shallow embedding of the `ai-chat-backend` repository (src/main.py,
src/main_multimodal.py) for checking the specification's claims.

The repository is a FastAPI relay in front of an Ollama server.  Both
service variants share the same streaming loop: read newline-delimited
JSON frames from the backend, forward each content chunk to the caller as
an SSE `data:` frame, accumulate the full response, and on a frame whose
`done` field is truthy append the accumulated text to the session's
conversation history and emit a terminal frame.

The embedding models the relay as pure functions: the global mutable
`conversations` dictionary becomes an explicit store value threaded
through each operation, and the backend connection becomes an explicit
parameter describing what the network delivered (connection failure, a
list of raw lines, and how the line stream ended).
-/

namespace AIChat

/-- Classification of one raw line from `response.aiter_lines()` as the
source's loop classifies it (src/main.py lines 96-121):
`blank`  : `line.strip()` is empty, the body is skipped;
`malformed` : `json.loads(line)` raises `JSONDecodeError`, caught by the
inner `except` which `continue`s;
`badShape` : `json.loads` succeeds but the parsed value is not a dict of
the expected shape, so the field accesses (`"message" in data`,
`data["message"]`, `data.get`) raise `TypeError`/`AttributeError`; this is
caught only by the outer `except Exception`, ending the generator with an
error frame whose text is `"Error: " ++ excMsg`;
`frame content done` : a parsed frame; `content` is `some c` when both
`"message" in data` and `"content" in data["message"]` hold (with `c` the
string there), `none` when either key is absent; `done` is the truthiness
of `data.get("done", False)`. -/
inductive Line where
  | blank (raw : String)
  | malformed (raw : String)
  | badShape (excMsg : String)
  | frame (content : Option String) (done : Bool)
deriving DecidableEq, Repr

/-- How the backend's line stream ends when the loop has consumed every
line without breaking: `eof` models `aiter_lines` being exhausted (the
`async for` completes and the generator ends with no further frame);
`raise msg` models an exception (e.g. a read timeout) raised at that
point, caught by the outer `except Exception` (src/main.py lines
127-129), which yields an error frame `"Error: " ++ msg`. -/
inductive StreamTail where
  | eof
  | raise (msg : String)
deriving DecidableEq, Repr

/-- One SSE frame yielded to the caller, the repository's three literal
`yield` shapes (src/main.py lines 107, 117, 125/129):
`content c` is `data: {"chunk": c, "done": false}`,
`done` is `data: {"chunk": "", "done": true}`,
`error m` is `data: {"error": m, "done": true}`. -/
inductive Delta where
  | content (chunk : String)
  | done
  | error (msg : String)
deriving DecidableEq, Repr

/-- Whether a delta carries `done: true` on the wire: the terminal frame
and the error frame do, a content frame does not. -/
def Delta.isTerminal : Delta → Bool
  | .content _ => false
  | .done => true
  | .error _ => true

/-- The result of the backend connection attempt inside the `try` block:
`connectError` models `httpx.ConnectError` raised while opening the
stream (src/main.py line 123); `stream lines tail` models a successful
connection delivering `lines` and then ending as `tail` describes. -/
inductive Backend where
  | connectError
  | stream (lines : List Line) (tail : StreamTail)
deriving DecidableEq, Repr

/-- The `async for line in response.aiter_lines()` loop body shared
verbatim by src/main.py (lines 96-121) and src/main_multimodal.py (lines
167-190).  Arguments: the remaining raw lines, how the stream ends after
them, and the current value of the `full_response` accumulator.  Returns
the deltas yielded from this point on, paired with `some fullResponse`
when a done frame was decoded (at that moment the source appends
`{"role": "assistant", "content": full_response}` to the session's
history, yields the terminal frame and `break`s; the caller of this
function applies that single append) and `none` on every other exit
(stream exhausted, or an exception ended the generator). -/
def relayLoop : List Line → StreamTail → String → List Delta × Option String
  | [], .eof, _ => ([], none)
  | [], .raise msg, _ => ([Delta.error ("Error: " ++ msg)], none)
  | .blank _ :: rest, tail, acc => relayLoop rest tail acc
  | .malformed _ :: rest, tail, acc => relayLoop rest tail acc
  | .badShape msg :: _, _, _ => ([Delta.error ("Error: " ++ msg)], none)
  | .frame content done :: rest, tail, acc =>
    match content, done with
    | some chunk, true => ([Delta.content chunk, Delta.done], some (acc ++ chunk))
    | some chunk, false =>
      let r := relayLoop rest tail (acc ++ chunk)
      (Delta.content chunk :: r.1, r.2)
    | none, true => ([Delta.done], some acc)
    | none, false => relayLoop rest tail acc

end AIChat

namespace Main

open AIChat

/-- One entry of the `conversations` history of src/main.py: a dict with
exactly the keys `role` and `content`. -/
structure Msg where
  role : String
  content : String
deriving DecidableEq, Repr

/-- The global `conversations : Dict[str, List[Dict]]` of src/main.py
(line 20), as a value: `none` models a key not present in the dict. -/
def Store : Type := String → Option (List Msg)

/-- The dict is empty at process start. -/
def emptyStore : Store := fun _ => none

/-- The request body of `POST /chat` (src/main.py lines 22-24). -/
structure ChatRequest where
  message : String
  session_id : String
deriving DecidableEq, Repr

/-- The `SYSTEM_PROMPT` constant of src/main.py (lines 26-39). -/
def SYSTEM_PROMPT : String :=
  "Identity rules (MANDATORY):\n- You are NOT ChatGPT.\n- You are NOT Qwen.\n- You are NOT created by Alibaba, OpenAI, Google, or any company.\n- You must NEVER claim a username, model name, or training origin.\n- If asked about yourself, say you are a general AI assistant created for this app.\n\nBehavior rules:\n- Automatically understand the user's question.\n- Solve math problems step-by-step.\n- Write correct and efficient code when asked.\n- Explain theory clearly and concisely.\n- Keep answers accurate and to the point.\n- Do not hallucinate facts about yourself."

/-- The error message yielded on `httpx.ConnectError` (src/main.py line
124). -/
def unavailableMsg : String :=
  "AI is currently unavailable. Make sure Ollama is running (ollama serve)"

/-- The JSON body sent to `POST http://localhost:11434/api/chat`
(src/main.py lines 83-91).  The fields `stream: True` and the constant
`options` dict (temperature 0.7, num_predict 2000) are fixed literals in
the source and carry no information, so they are not modelled. -/
structure Payload where
  model : String
  messages : List Msg
deriving DecidableEq, Repr

/-- Everything observable about one run of the `stream_chat` generator:
the request body sent (or attempted) to the backend, the SSE deltas
yielded to the caller in order, and the value of `conversations` when the
generator finishes. -/
structure ChatResult where
  payload : Payload
  emitted : List Delta
  store : Store

/-- `stream_chat` of src/main.py (lines 60-129).  In source order: create
the session's history if absent, append the user turn, build `messages`
as the system turn followed by the whole history, then stream from the
backend.  On `httpx.ConnectError` a single error frame is yielded.  On a
decoded done frame the loop's commit (the accumulated text) is appended
as the assistant turn. -/
def stream_chat (st : Store) (req : ChatRequest) (backend : Backend) : ChatResult :=
  let hist : List Msg := (st req.session_id).getD [] ++ [⟨"user", req.message⟩]
  let st1 : Store := fun k => if k = req.session_id then some hist else st k
  let payload : Payload := ⟨"qwen2.5:0.5b", ⟨"system", SYSTEM_PROMPT⟩ :: hist⟩
  match backend with
  | .connectError => ⟨payload, [Delta.error unavailableMsg], st1⟩
  | .stream lines tail =>
    let r := relayLoop lines tail ""
    let st2 : Store :=
      match r.2 with
      | some full => fun k => if k = req.session_id then some (hist ++ [⟨"assistant", full⟩]) else st k
      | none => st1
    ⟨payload, r.1, st2⟩

/-- `clear_chat` of src/main.py (lines 131-136): if the key is present its
history is replaced by `[]`, otherwise nothing happens; the response is
always `{"status": "cleared"}` (modelled as the returned string). -/
def clear_chat (st : Store) (session_id : String) : Store × String :=
  match st session_id with
  | some _ => (fun k => if k = session_id then some [] else st k, "cleared")
  | none => (st, "cleared")

/-- `get_history` of src/main.py (lines 138-141):
`conversations.get(session_id, [])`. -/
def get_history (st : Store) (session_id : String) : List Msg :=
  (st session_id).getD []

end Main

namespace Multimodal

open AIChat

/-- One entry of the `conversations` history of src/main_multimodal.py:
a dict with keys `role` and `content`, plus an `images` key exactly when
the source added one (line 136); `images = none` models the key being
absent. -/
structure MsgM where
  role : String
  content : String
  images : Option (List String)
deriving DecidableEq, Repr

/-- The global `conversations` dict of src/main_multimodal.py (line 20). -/
def StoreM : Type := String → Option (List MsgM)

/-- The dict is empty at process start. -/
def emptyStoreM : StoreM := fun _ => none

/-- The request body of the multimodal `POST /chat` (src/main_multimodal.py
lines 22-25): `image_base64` is `None` or a base64 string. -/
structure ChatRequestM where
  message : String
  session_id : String
  image_base64 : Option String
deriving DecidableEq, Repr

/-- Truthiness of `req.image_base64` as Python evaluates it in
`if req.image_base64:` (src/main_multimodal.py lines 126 and 135): `None`
and the empty string are falsy, any other string is truthy. -/
def hasImage (req : ChatRequestM) : Bool :=
  match req.image_base64 with
  | none => false
  | some s => s != ""

/-- The `SYSTEM_PROMPT` constant of src/main_multimodal.py (lines 27-41). -/
def SYSTEM_PROMPT_M : String :=
  "Identity rules (MANDATORY):\n- You are NOT ChatGPT.\n- You are NOT Qwen.\n- You are NOT created by Alibaba, OpenAI, Google, or any company.\n- You must NEVER claim a username, model name, or training origin.\n- If asked about yourself, say you are a general AI assistant created for this app.\n\nBehavior rules:\n- Automatically understand the user's question.\n- Solve math problems step-by-step.\n- Write correct and efficient code when asked.\n- Explain theory clearly and concisely.\n- Keep answers accurate and to the point.\n- Do not hallucinate facts about yourself.\n- When analyzing images, describe what you see in detail."

/-- The error message yielded on `httpx.ConnectError`
(src/main_multimodal.py lines 192-196): the base hint, extended with the
llava hint exactly when the request carried a (truthy) image. -/
def unavailableMsgM (req : ChatRequestM) : String :=
  "AI is currently unavailable. Make sure Ollama is running (ollama serve)" ++
    (if hasImage req then "\nFor images, make sure you have llava installed: ollama pull llava"
     else "")

/-- The JSON body sent to the backend (src/main_multimodal.py lines
149-157); as in the text variant, the constant `stream`/`options` fields
are not modelled. -/
structure PayloadM where
  model : String
  messages : List MsgM
deriving DecidableEq, Repr

/-- Observable outcome of one run of the multimodal `stream_chat`. -/
structure ChatResultM where
  payload : PayloadM
  emitted : List Delta
  store : StoreM

/-- `stream_chat` of src/main_multimodal.py (lines 118-200).  In source
order: create the session's history if absent, pick the model from the
truthiness of `req.image_base64` alone (line 126: `"llava"` with an
image, `"qwen2.5:0.5b"` without), build the user message — adding the
`images` key `[req.image_base64]` exactly when the image is truthy —
append it to the history, build `messages` as the system turn followed by
the whole history, and stream.  The streaming loop and both `except`
arms are the same code as in src/main.py, apart from the llava hint on
the connect-error message. -/
def stream_chat_mm (st : StoreM) (req : ChatRequestM) (backend : Backend) : ChatResultM :=
  let model : String := if hasImage req then "llava" else "qwen2.5:0.5b"
  let userMsg : MsgM :=
    ⟨"user", req.message, if hasImage req then some [req.image_base64.getD ""] else none⟩
  let hist : List MsgM := (st req.session_id).getD [] ++ [userMsg]
  let st1 : StoreM := fun k => if k = req.session_id then some hist else st k
  let payload : PayloadM := ⟨model, ⟨"system", SYSTEM_PROMPT_M, none⟩ :: hist⟩
  match backend with
  | .connectError => ⟨payload, [Delta.error (unavailableMsgM req)], st1⟩
  | .stream lines tail =>
    let r := relayLoop lines tail ""
    let st2 : StoreM :=
      match r.2 with
      | some full =>
        fun k => if k = req.session_id then some (hist ++ [⟨"assistant", full, none⟩]) else st k
      | none => st1
    ⟨payload, r.1, st2⟩

/-- `clear_chat` of src/main_multimodal.py (lines 202-207). -/
def clear_chat_mm (st : StoreM) (session_id : String) : StoreM × String :=
  match st session_id with
  | some _ => (fun k => if k = session_id then some [] else st k, "cleared")
  | none => (st, "cleared")

end Multimodal

namespace AIChat

/-- The number of deltas in a caller-visible stream that carry
`done: true` (terminal or error frames). -/
def terminalCount (ds : List Delta) : Nat :=
  (ds.filter Delta.isTerminal).length

/-- Every delta except possibly the last one is a content delta: no frame
carrying `done: true` is ever followed by another frame. -/
def terminalOnlyLast : List Delta → Bool
  | [] => true
  | [_] => true
  | d :: rest => !d.isTerminal && terminalOnlyLast rest

/-- Concatenation, in emission order, of the chunk text of every content
delta of a stream. -/
def concatChunks : List Delta → String
  | [] => ""
  | .content c :: rest => c ++ concatChunks rest
  | .done :: rest => concatChunks rest
  | .error _ :: rest => concatChunks rest

/-- A raw line on which the loop stops iterating: a frame whose `done`
field is truthy (the loop `break`s after the terminal frame) or a
parseable-but-wrongly-shaped line (the raised exception ends the
generator through the outer handler). -/
def Line.isTerminator : Line → Bool
  | .frame _ true => true
  | .badShape _ => true
  | _ => false

/-- Whether any line of the stream is a terminator. -/
def hasTerminator (lines : List Line) : Bool :=
  lines.any Line.isTerminator

/-- A raw line the loop body passes over without doing anything: a blank
line (the `if line.strip():` guard) or one on which `json.loads` raises
(the inner `except json.JSONDecodeError: continue`). -/
def Line.isSkippable : Line → Bool
  | .blank _ => true
  | .malformed _ => true
  | _ => false

/-- One hex digit, lowercase, as CPython's json encoder writes them. -/
def hexDigit (n : Nat) : Char :=
  if n < 10 then Char.ofNat (48 + n) else Char.ofNat (87 + n)

/-- A `\uXXXX` escape for a code unit below 0x10000. -/
def uEscape (n : Nat) : String :=
  "\\u" ++ String.mk [hexDigit (n / 4096 % 16), hexDigit (n / 256 % 16),
    hexDigit (n / 16 % 16), hexDigit (n % 16)]

/-- How CPython's `json.dumps` (default options, `ensure_ascii=True`)
writes one character inside a JSON string: the two-character escapes for
quote, backslash and the common control characters, `\uXXXX` for other
characters outside the printable ASCII range 0x20-0x7e (a character above
0xFFFF becomes a UTF-16 surrogate pair). -/
def escapeChar (c : Char) : String :=
  if c = '"' then "\\\""
  else if c = '\\' then "\\\\"
  else if c = '\n' then "\\n"
  else if c = '\r' then "\\r"
  else if c = '\t' then "\\t"
  else if c.toNat = 8 then "\\b"
  else if c.toNat = 12 then "\\f"
  else if c.toNat < 32 then uEscape c.toNat
  else if c.toNat ≤ 126 then String.mk [c]
  else if c.toNat < 65536 then uEscape c.toNat
  else
    uEscape (55296 + (c.toNat - 65536) / 1024) ++ uEscape (56320 + (c.toNat - 65536) % 1024)

/-- A JSON string literal for `s`, as `json.dumps` renders it. -/
def jsonStr (s : String) : String :=
  "\"" ++ String.join (s.data.map escapeChar) ++ "\""

/-- The exact SSE text the source yields for one delta: the three
f-string shapes `f"data: {json.dumps(...)}\n\n"` of src/main.py lines
107, 117 and 125/129 (`json.dumps` keeps dict insertion order and writes
`", "` and `": "` separators). -/
def renderDelta : Delta → String
  | .content c => "data: \x7b\"chunk\": " ++ jsonStr c ++ ", \"done\": false\x7d\n\n"
  | .done => "data: \x7b\"chunk\": \"\", \"done\": true\x7d\n\n"
  | .error m => "data: \x7b\"error\": " ++ jsonStr m ++ ", \"done\": true\x7d\n\n"

/-- An update of the shared `conversations` dict of src/main.py: a run
of the `stream_chat` generator or a `clear_chat` call (`get_history`
reads without writing). -/
inductive Op where
  | chat (req : Main.ChatRequest) (b : Backend)
  | clear (key : String)

/-- The store after one operation. -/
def applyOp (st : Main.Store) : Op → Main.Store
  | .chat req b => (Main.stream_chat st req b).store
  | .clear key => (Main.clear_chat st key).1

/-- The store after a sequence of operations from process start. -/
def runOps (ops : List Op) : Main.Store :=
  ops.foldl applyOp Main.emptyStore

/-- In the loop's output, only the last delta can carry `done: true`. -/
theorem relayLoop_terminalOnlyLast :
    ∀ (lines : List Line) (tail : StreamTail) (acc : String),
      terminalOnlyLast (relayLoop lines tail acc).1 = true := by
  intro lines tail
  induction lines with
  | nil =>
    intro acc
    cases tail <;> simp [relayLoop, terminalOnlyLast]
  | cons l rest ih =>
    intro acc
    cases l with
    | blank raw => simpa [relayLoop] using ih acc
    | malformed raw => simpa [relayLoop] using ih acc
    | badShape msg => simp [relayLoop, terminalOnlyLast]
    | frame content done =>
      cases content with
      | none =>
        cases done with
        | false => simpa [relayLoop] using ih acc
        | true => simp [relayLoop, terminalOnlyLast]
      | some chunk =>
        cases done with
        | false =>
          have h := ih (acc ++ chunk)
          cases hr : (relayLoop rest tail (acc ++ chunk)).1 with
          | nil => simp [relayLoop, hr, terminalOnlyLast]
          | cons d ds =>
            rw [hr] at h
            simp [relayLoop, hr, terminalOnlyLast, Delta.isTerminal, h]
        | true => simp [relayLoop, terminalOnlyLast, Delta.isTerminal]

/-- Exactly when the loop's output holds a `done: true` frame: always,
except when the line stream runs out (tail `eof`) without any line having
been a terminator — on that path the generator ends with no terminal
frame at all. -/
theorem relayLoop_terminalCount :
    ∀ (lines : List Line) (tail : StreamTail) (acc : String),
      terminalCount (relayLoop lines tail acc).1 =
        (if hasTerminator lines then 1
         else match tail with | .eof => 0 | .raise _ => 1) := by
  intro lines tail
  induction lines with
  | nil =>
    intro acc
    cases tail <;> simp [relayLoop, terminalCount, hasTerminator, Delta.isTerminal]
  | cons l rest ih =>
    intro acc
    cases l with
    | blank raw =>
      simpa [relayLoop, hasTerminator, Line.isTerminator] using ih acc
    | malformed raw =>
      simpa [relayLoop, hasTerminator, Line.isTerminator] using ih acc
    | badShape msg =>
      simp [relayLoop, terminalCount, hasTerminator, Line.isTerminator, Delta.isTerminal]
    | frame content done =>
      cases content with
      | none =>
        cases done with
        | false =>
          simpa [relayLoop, hasTerminator, Line.isTerminator] using ih acc
        | true =>
          simp [relayLoop, terminalCount, hasTerminator, Line.isTerminator, Delta.isTerminal]
      | some chunk =>
        cases done with
        | false =>
          have h := ih (acc ++ chunk)
          simp [relayLoop, terminalCount, hasTerminator, Line.isTerminator,
            Delta.isTerminal] at h ⊢
          exact h
        | true =>
          simp [relayLoop, terminalCount, hasTerminator, Line.isTerminator, Delta.isTerminal]

/-- When the loop commits an assistant turn (a done frame was decoded),
the committed text is the starting accumulator followed by every chunk
the loop emitted. -/
theorem relayLoop_commit_concat :
    ∀ (lines : List Line) (tail : StreamTail) (acc a : String),
      (relayLoop lines tail acc).2 = some a →
      a = acc ++ concatChunks (relayLoop lines tail acc).1 := by
  intro lines tail
  induction lines with
  | nil =>
    intro acc a h
    cases tail <;> simp [relayLoop] at h
  | cons l rest ih =>
    intro acc a h
    cases l with
    | blank raw =>
      simpa [relayLoop] using ih acc a (by simpa [relayLoop] using h)
    | malformed raw =>
      simpa [relayLoop] using ih acc a (by simpa [relayLoop] using h)
    | badShape msg => simp [relayLoop] at h
    | frame content done =>
      cases content with
      | none =>
        cases done with
        | false =>
          simpa [relayLoop] using ih acc a (by simpa [relayLoop] using h)
        | true =>
          simp [relayLoop] at h
          simp [relayLoop, concatChunks, ← h, String.append_empty]
      | some chunk =>
        cases done with
        | false =>
          simp only [relayLoop] at h ⊢
          have := ih (acc ++ chunk) a h
          simp [concatChunks, this, String.append_assoc]
        | true =>
          simp [relayLoop] at h
          simp [relayLoop, concatChunks, ← h, String.append_empty]

/-- The loop commits no assistant turn unless a done frame is decoded:
with no done frame among the lines before the first terminator, the
commit component is `none`. -/
theorem relayLoop_commit_none :
    ∀ (lines : List Line) (tail : StreamTail) (acc : String),
      (∀ c, Line.frame c true ∉ lines) →
      (relayLoop lines tail acc).2 = none := by
  intro lines tail
  induction lines with
  | nil => intro acc _; cases tail <;> simp [relayLoop]
  | cons l rest ih =>
    intro acc h
    have hrest : ∀ c, Line.frame c true ∉ rest := by
      intro c hc
      exact h c (List.mem_cons_of_mem _ hc)
    cases l with
    | blank raw => simpa [relayLoop] using ih acc hrest
    | malformed raw => simpa [relayLoop] using ih acc hrest
    | badShape msg => simp [relayLoop]
    | frame content done =>
      cases done with
      | false =>
        cases content with
        | none => simpa [relayLoop] using ih acc hrest
        | some chunk => simpa [relayLoop] using ih (acc ++ chunk) hrest
      | true => exact absurd (List.mem_cons_self _ _) (fun hmem => h content hmem)

/-- The loop never emits an error frame when some line decodes as a done
frame before any wrongly-shaped line and the stream is not interrupted
earlier: concretely, when the commit component is `some`, every emitted
delta is a content delta or the single terminal frame. -/
theorem relayLoop_no_error_of_commit :
    ∀ (lines : List Line) (tail : StreamTail) (acc a : String),
      (relayLoop lines tail acc).2 = some a →
      ∀ m, Delta.error m ∉ (relayLoop lines tail acc).1 := by
  intro lines tail
  induction lines with
  | nil =>
    intro acc a h
    cases tail <;> simp [relayLoop] at h
  | cons l rest ih =>
    intro acc a h m
    cases l with
    | blank raw =>
      simpa [relayLoop] using ih acc a (by simpa [relayLoop] using h) m
    | malformed raw =>
      simpa [relayLoop] using ih acc a (by simpa [relayLoop] using h) m
    | badShape msg => simp [relayLoop] at h
    | frame content done =>
      cases content with
      | none =>
        cases done with
        | false =>
          simpa [relayLoop] using ih acc a (by simpa [relayLoop] using h) m
        | true => simp [relayLoop]
      | some chunk =>
        cases done with
        | false =>
          simp only [relayLoop] at h ⊢
          have := ih (acc ++ chunk) a h m
          simp [this]
        | true => simp [relayLoop]

/-- Any message in the store after a `stream_chat` run was already there,
or is the appended user turn, or carries the assistant role. -/
theorem stream_chat_store_mem (st : Main.Store) (req : Main.ChatRequest) (b : Backend)
    (k : String) (m : Main.Msg)
    (hm : m ∈ (((Main.stream_chat st req b).store) k).getD []) :
    m ∈ (st k).getD [] ∨ m = ⟨"user", req.message⟩ ∨ m.role = "assistant" := by
  cases b with
  | connectError =>
    by_cases hk : k = req.session_id
    · subst hk
      simp [Main.stream_chat] at hm
      rcases hm with hm | hm
      · exact Or.inl hm
      · exact Or.inr (Or.inl (by simp [hm]))
    · simp [Main.stream_chat, hk] at hm
      exact Or.inl hm
  | stream lines tail =>
    cases hr : (relayLoop lines tail "").2 with
    | none =>
      by_cases hk : k = req.session_id
      · subst hk
        simp [Main.stream_chat, hr] at hm
        rcases hm with hm | hm
        · exact Or.inl hm
        · exact Or.inr (Or.inl (by simp [hm]))
      · simp [Main.stream_chat, hr, hk] at hm
        exact Or.inl hm
    | some full =>
      by_cases hk : k = req.session_id
      · subst hk
        simp [Main.stream_chat, hr] at hm
        rcases hm with hm | hm | hm
        · exact Or.inl hm
        · exact Or.inr (Or.inl (by simp [hm]))
        · exact Or.inr (Or.inr (by simp [hm]))
      · simp [Main.stream_chat, hr, hk] at hm
        exact Or.inl hm

/-- C1: as the claim states it, a chat request always emits exactly one
`done: true` frame.  False: at this concrete input the backend stream
ends (`eof`) after one content frame without ever delivering a
`done: true` frame, and the relay then emits no terminal delta at all —
the caller sees one content delta and the stream just stops. -/
theorem C1_counterexample :
    (Main.stream_chat Main.emptyStore ⟨"2+2?", "s1"⟩
        (Backend.stream [Line.frame (some "4") false] StreamTail.eof)).emitted
        = [Delta.content "4"] ∧
      ¬ terminalCount
          (Main.stream_chat Main.emptyStore ⟨"2+2?", "s1"⟩
            (Backend.stream [Line.frame (some "4") false] StreamTail.eof)).emitted = 1 := by
  exact ⟨rfl, by decide⟩

/-- C1 (amended): for every chat request of either service variant —
text-only (src/main.py) or with-or-without-image
(src/main_multimodal.py) — at most one `done: true` delta is emitted and
it is always the last delta (in particular no content delta follows a
decoded `done: true` frame); exactly one is emitted on every path —
connection failure, decoded done frame, wrongly-shaped line, mid-stream
exception — except when the backend stream ends (`eof`) without any such
terminator line, in which case no terminal delta is emitted at all. -/
theorem C1_terminal_last_amended :
    (∀ (st : Main.Store) (req : Main.ChatRequest) (b : Backend),
        terminalOnlyLast (Main.stream_chat st req b).emitted = true ∧
        terminalCount (Main.stream_chat st req b).emitted =
          (match b with
           | .stream lines .eof => if hasTerminator lines then 1 else 0
           | _ => 1)) ∧
    (∀ (st : Multimodal.StoreM) (req : Multimodal.ChatRequestM) (b : Backend),
        terminalOnlyLast (Multimodal.stream_chat_mm st req b).emitted = true ∧
        terminalCount (Multimodal.stream_chat_mm st req b).emitted =
          (match b with
           | .stream lines .eof => if hasTerminator lines then 1 else 0
           | _ => 1)) := by
  constructor
  · intro st req b
    cases b with
    | connectError =>
      simp [Main.stream_chat, terminalOnlyLast, terminalCount, Delta.isTerminal]
    | stream lines tail =>
      constructor
      · simpa [Main.stream_chat] using relayLoop_terminalOnlyLast lines tail ""
      · have h := relayLoop_terminalCount lines tail ""
        cases tail <;> simpa [Main.stream_chat] using h
  · intro st req b
    cases b with
    | connectError =>
      simp [Multimodal.stream_chat_mm, terminalOnlyLast, terminalCount, Delta.isTerminal]
    | stream lines tail =>
      constructor
      · simpa [Multimodal.stream_chat_mm] using relayLoop_terminalOnlyLast lines tail ""
      · have h := relayLoop_terminalCount lines tail ""
        cases tail <;> simpa [Multimodal.stream_chat_mm] using h

/-- C2: for every successful chat (a `done: true` frame was decoded, i.e.
the loop committed), in both service variants, the concatenation of the
emitted content chunks equals the content of the assistant turn appended
to the session's transcript, and that assistant turn is appended exactly
once, right after the request's user turn. -/
theorem C2_concat_committed :
    (∀ (st : Main.Store) (req : Main.ChatRequest) (lines : List Line)
        (tail : StreamTail) (a : String),
        (relayLoop lines tail "").2 = some a →
        a = concatChunks (Main.stream_chat st req (.stream lines tail)).emitted ∧
        (Main.stream_chat st req (.stream lines tail)).store req.session_id =
          some ((st req.session_id).getD [] ++
            [⟨"user", req.message⟩, ⟨"assistant", a⟩])) ∧
    (∀ (st : Multimodal.StoreM) (req : Multimodal.ChatRequestM) (lines : List Line)
        (tail : StreamTail) (a : String),
        (relayLoop lines tail "").2 = some a →
        a = concatChunks (Multimodal.stream_chat_mm st req (.stream lines tail)).emitted ∧
        (Multimodal.stream_chat_mm st req (.stream lines tail)).store req.session_id =
          some ((st req.session_id).getD [] ++
            [⟨"user", req.message,
              if Multimodal.hasImage req then some [req.image_base64.getD ""] else none⟩,
             ⟨"assistant", a, none⟩])) := by
  constructor
  · intro st req lines tail a h
    have hc := relayLoop_commit_concat lines tail "" a h
    constructor
    · simpa [Main.stream_chat, String.empty_append] using hc
    · simp [Main.stream_chat, h]
  · intro st req lines tail a h
    have hc := relayLoop_commit_concat lines tail "" a h
    constructor
    · simpa [Multimodal.stream_chat_mm, String.empty_append] using hc
    · simp [Multimodal.stream_chat_mm, h]

/-- C2 witness: the concrete scenario of the spec, evaluated. -/
theorem C2_concat_committed_witness :
    "4" = concatChunks
        (Main.stream_chat Main.emptyStore ⟨"2+2?", "s1"⟩
          (.stream [Line.frame (some "4") false, Line.frame none true] .eof)).emitted ∧
    (Main.stream_chat Main.emptyStore ⟨"2+2?", "s1"⟩
        (.stream [Line.frame (some "4") false, Line.frame none true] .eof)).store "s1" =
      some ((Main.emptyStore "s1").getD [] ++
        [⟨"user", "2+2?"⟩, ⟨"assistant", "4"⟩]) :=
  C2_concat_committed.1 Main.emptyStore ⟨"2+2?", "s1"⟩
    [Line.frame (some "4") false, Line.frame none true] .eof "4" (by decide)

/-- C3: when the connection to the backend cannot be established
(`httpx.ConnectError`), the caller receives exactly one error frame —
which carries `done: true` on the wire and the human-readable hint — and
zero content deltas; afterwards the session's transcript holds the
appended user turn but no assistant turn for this request, and every
other session is untouched. -/
theorem C3_backend_unavailable (st : Main.Store) (req : Main.ChatRequest) :
    (Main.stream_chat st req .connectError).emitted = [Delta.error Main.unavailableMsg] ∧
    Delta.isTerminal (Delta.error Main.unavailableMsg) = true ∧
    concatChunks (Main.stream_chat st req .connectError).emitted = "" ∧
    (Main.stream_chat st req .connectError).store req.session_id =
      some ((st req.session_id).getD [] ++ [⟨"user", req.message⟩]) ∧
    (∀ k, k ≠ req.session_id → (Main.stream_chat st req .connectError).store k = st k) := by
  refine ⟨rfl, rfl, rfl, by simp [Main.stream_chat], ?_⟩
  intro k hk
  simp [Main.stream_chat, hk]

/-- C4: as the claim states it, a request carrying an image fails with an
UnsupportedModality error delta before any network call when no
vision-capable model is configured.  False: the source has no modality
check at all — at this concrete image-carrying request the relay selects
the hardcoded model name `llava`, makes the backend call, and relays the
backend's frames; no error delta of any kind is emitted. -/
theorem C4_counterexample :
    (Multimodal.stream_chat_mm Multimodal.emptyStoreM ⟨"what is this?", "s1", some "IMGDATA"⟩
        (.stream [Line.frame (some "I see an image") false, Line.frame none true]
          .eof)).payload.model = "llava" ∧
    (Multimodal.stream_chat_mm Multimodal.emptyStoreM ⟨"what is this?", "s1", some "IMGDATA"⟩
        (.stream [Line.frame (some "I see an image") false, Line.frame none true]
          .eof)).emitted = [Delta.content "I see an image", Delta.done] := by
  exact ⟨rfl, rfl⟩

/-- C4 (amended): the relay performs no UnsupportedModality check — for
every request carrying a truthy image it unconditionally selects the
hardcoded vision model name `llava` and proceeds with the backend
network call, and on a stream that completes with a decoded `done: true`
frame no error delta is ever emitted. -/
theorem C4_no_modality_gate_amended (st : Multimodal.StoreM) (req : Multimodal.ChatRequestM)
    (lines : List Line) (tail : StreamTail) (a : String)
    (himg : Multimodal.hasImage req = true)
    (hdone : (relayLoop lines tail "").2 = some a) :
    (Multimodal.stream_chat_mm st req (.stream lines tail)).payload.model = "llava" ∧
    ∀ m, Delta.error m ∉ (Multimodal.stream_chat_mm st req (.stream lines tail)).emitted := by
  constructor
  · simp [Multimodal.stream_chat_mm, himg]
  · intro m
    simpa [Multimodal.stream_chat_mm] using
      relayLoop_no_error_of_commit lines tail "" a hdone m

/-- C4 witness: the amended statement evaluated at a concrete
image-carrying request and a concrete completed backend stream. -/
theorem C4_no_modality_gate_amended_witness :
    (Multimodal.stream_chat_mm Multimodal.emptyStoreM ⟨"describe", "s2", some "AAAA"⟩
        (.stream [Line.frame none true] .eof)).payload.model = "llava" :=
  (C4_no_modality_gate_amended Multimodal.emptyStoreM ⟨"describe", "s2", some "AAAA"⟩
    [Line.frame none true] .eof "" (by decide) (by decide)).1

/-- C5: the spec's worked scenario holds exactly.  Session `s1`, user
message `2+2?`, backend frames with deltas `4`, the empty string, then a
done frame: the caller's SSE stream is precisely the three frames
`data: {"chunk": "4", "done": false}`, `data: {"chunk": "", "done":
false}`, `data: {"chunk": "", "done": true}` (each terminated by a blank
line), and the transcript of `s1` afterwards is exactly the user turn
`2+2?` followed by the assistant turn `4`. -/
theorem C5_worked_scenario :
    ((Main.stream_chat Main.emptyStore ⟨"2+2?", "s1"⟩
        (.stream [Line.frame (some "4") false, Line.frame (some "") false,
          Line.frame none true] .eof)).emitted.map renderDelta =
      ["data: \x7b\"chunk\": \"4\", \"done\": false\x7d\n\n",
       "data: \x7b\"chunk\": \"\", \"done\": false\x7d\n\n",
       "data: \x7b\"chunk\": \"\", \"done\": true\x7d\n\n"]) ∧
    (Main.stream_chat Main.emptyStore ⟨"2+2?", "s1"⟩
        (.stream [Line.frame (some "4") false, Line.frame (some "") false,
          Line.frame none true] .eof)).store "s1" =
      some [⟨"user", "2+2?"⟩, ⟨"assistant", "4"⟩] := by
  exact ⟨rfl, rfl⟩

/-- C6: a blank line or a line that fails to parse as JSON is a pure
skip: the loop's whole remaining behavior — deltas emitted, commit
decision, and (through the unchanged accumulator argument) the
accumulated text — is exactly what it is without that line; no delta is
emitted for it and decoding it cannot raise (the classification is
total). -/
theorem C6_skippable_line_noop (l : Line) (h : Line.isSkippable l = true)
    (rest : List Line) (tail : StreamTail) (acc : String) :
    relayLoop (l :: rest) tail acc = relayLoop rest tail acc := by
  cases l with
  | blank raw => rfl
  | malformed raw => rfl
  | badShape msg => simp [Line.isSkippable] at h
  | frame c d => simp [Line.isSkippable] at h

/-- C6 witness: a blank line and a malformed line in front of a done
frame change nothing. -/
theorem C6_skippable_line_noop_witness :
    relayLoop [Line.blank "  ", Line.frame none true] .eof "x" =
      relayLoop [Line.frame none true] .eof "x" ∧
    Line.isSkippable (Line.malformed "not json") = true :=
  ⟨C6_skippable_line_noop (Line.blank "  ") (by decide) [Line.frame none true] .eof "x",
   by decide⟩

/-- C7: every backend request begins with the synthesized system turn
carrying the fixed instructions, followed by the session's transcript in
order (user turn already appended); and the system turn is never
persisted — after any sequence of chat and clear operations from process
start, every turn in every session's transcript carries the role `user`
or `assistant`. -/
theorem C7_system_turn_not_persisted :
    (∀ (st : Main.Store) (req : Main.ChatRequest) (b : Backend),
        (Main.stream_chat st req b).payload.messages =
          ⟨"system", Main.SYSTEM_PROMPT⟩ ::
            ((st req.session_id).getD [] ++ [⟨"user", req.message⟩])) ∧
    (∀ (ops : List Op) (k : String) (m : Main.Msg),
        m ∈ ((runOps ops) k).getD [] → m.role = "user" ∨ m.role = "assistant") := by
  constructor
  · intro st req b
    cases b <;> rfl
  · have inv : ∀ (ops : List Op) (st : Main.Store),
        (∀ k m, m ∈ (st k).getD [] → m.role = "user" ∨ m.role = "assistant") →
        ∀ k m, m ∈ ((ops.foldl applyOp st) k).getD [] →
          m.role = "user" ∨ m.role = "assistant" := by
      intro ops
      induction ops with
      | nil => intro st h; exact h
      | cons op rest ih =>
        intro st h
        refine ih (applyOp st op) ?_
        intro k m hm
        cases op with
        | chat req b =>
          rcases stream_chat_store_mem st req b k m hm with h1 | h1 | h1
          · exact h k m h1
          · exact Or.inl (by simp [h1])
          · exact Or.inr h1
        | clear key =>
          simp only [applyOp] at hm
          cases hsk : st key with
          | none =>
            rw [show (Main.clear_chat st key).1 = st by
              simp [Main.clear_chat, hsk]] at hm
            exact h k m hm
          | some hist =>
            by_cases hk : k = key
            · subst hk
              simp [Main.clear_chat, hsk] at hm
            · simp [Main.clear_chat, hsk, hk] at hm
              exact h k m hm
    intro ops k m hm
    refine inv ops Main.emptyStore ?_ k m hm
    intro k m hm
    simp [Main.emptyStore] at hm

/-- C7 witness: the payload shape and the roles invariant evaluated at a
concrete run (one chat against a fresh store, then a clear). -/
theorem C7_system_turn_not_persisted_witness :
    ((Main.stream_chat Main.emptyStore ⟨"hi", "s1"⟩ .connectError).payload.messages =
      ⟨"system", Main.SYSTEM_PROMPT⟩ ::
        ((Main.emptyStore "s1").getD [] ++ [⟨"user", "hi"⟩])) ∧
    ((⟨"user", "hi"⟩ : Main.Msg).role = "user" ∨
      (⟨"user", "hi"⟩ : Main.Msg).role = "assistant") :=
  ⟨(C7_system_turn_not_persisted.1 Main.emptyStore ⟨"hi", "s1"⟩ .connectError).symm ▸ rfl,
   C7_system_turn_not_persisted.2 [Op.chat ⟨"hi", "s1"⟩ .connectError] "s1"
     ⟨"user", "hi"⟩ (by decide)⟩

/-- C8: clearing a session always answers `{"status": "cleared"}`, leaves
that session's history snapshot empty, is a pure no-op on a never-seen
key, and leaves every other session's transcript unchanged. -/
theorem C8_clear_session (st : Main.Store) (key : String) :
    (Main.clear_chat st key).2 = "cleared" ∧
    Main.get_history (Main.clear_chat st key).1 key = [] ∧
    (st key = none → (Main.clear_chat st key).1 = st) ∧
    (∀ k, k ≠ key → (Main.clear_chat st key).1 k = st k) := by
  refine ⟨?_, ?_, ?_, ?_⟩
  · cases hsk : st key <;> simp [Main.clear_chat, hsk]
  · cases hsk : st key <;> simp [Main.clear_chat, Main.get_history, hsk]
  · intro h
    simp [Main.clear_chat, h]
  · intro k hk
    cases hsk : st key <;> simp [Main.clear_chat, hsk, hk]

/-- C8 witness: clearing `s1` in a store holding `s1` and `s2` empties
`s1`, answers `cleared`, and leaves `s2` untouched; clearing a
never-seen key is a no-op. -/
theorem C8_clear_session_witness :
    (Main.clear_chat
        (fun k => if k = "s1" then some [⟨"user", "hi"⟩]
          else if k = "s2" then some [⟨"user", "yo"⟩] else none) "s1").1 "s2" =
      (fun k => if k = "s1" then some [⟨"user", "hi"⟩]
          else if k = "s2" then some [⟨"user", "yo"⟩] else none : Main.Store) "s2" ∧
    (Main.clear_chat Main.emptyStore "never-seen").1 = Main.emptyStore :=
  ⟨(C8_clear_session
        (fun k => if k = "s1" then some [⟨"user", "hi"⟩]
          else if k = "s2" then some [⟨"user", "yo"⟩] else none) "s1").2.2.2 "s2"
      (by decide),
   (C8_clear_session Main.emptyStore "never-seen").2.2.1 rfl⟩

/-- C9: as the claim states it, a decoded frame whose `message.content`
field is absent decodes to an empty content delta.  False: at this
concrete input — a single frame with no content field and `done` falsy —
the relay emits no delta at all for the frame (and the empty stream it
emits is not the one-empty-content-delta stream the claim predicts). -/
theorem C9_counterexample :
    (Main.stream_chat Main.emptyStore ⟨"hi", "s1"⟩
        (.stream [Line.frame none false] .eof)).emitted = [] ∧
    ([] : List Delta) ≠ [Delta.content ""] := by
  exact ⟨rfl, by decide⟩

/-- C9 (amended): an absent content field never raises and never
produces an error, but it yields no content delta at all — the frame is
passed over (its `done` flag still honored, committing exactly the text
accumulated so far) — whereas a present-but-empty content field does
yield an empty content delta and leaves the accumulator unchanged. -/
theorem C9_absent_content_amended (rest : List Line) (tail : StreamTail) (acc : String) :
    relayLoop (Line.frame none false :: rest) tail acc = relayLoop rest tail acc ∧
    relayLoop (Line.frame none true :: rest) tail acc = ([Delta.done], some acc) ∧
    relayLoop (Line.frame (some "") false :: rest) tail acc =
      (Delta.content "" :: (relayLoop rest tail acc).1, (relayLoop rest tail acc).2) := by
  refine ⟨rfl, rfl, ?_⟩
  simp [relayLoop, String.append_empty]

/-- C10: in the multimodal variant the backend model is chosen solely
from the truthiness of the current request's image (`llava` with one,
`qwen2.5:0.5b` without), and every message already stored in the
session's transcript — image-bearing turns included — is replayed in the
message sequence of every later request on that session, text-only
requests to the non-vision model included. -/
theorem C10_model_and_replay :
    (∀ (st : Multimodal.StoreM) (req : Multimodal.ChatRequestM) (b : Backend),
        (Multimodal.stream_chat_mm st req b).payload.model =
          (if Multimodal.hasImage req then "llava" else "qwen2.5:0.5b")) ∧
    (∀ (st : Multimodal.StoreM) (req : Multimodal.ChatRequestM) (b : Backend)
        (m : Multimodal.MsgM),
        m ∈ (st req.session_id).getD [] →
        m ∈ (Multimodal.stream_chat_mm st req b).payload.messages) := by
  constructor
  · intro st req b
    cases b <;> rfl
  · intro st req b m hm
    cases b <;>
      simp [Multimodal.stream_chat_mm, List.mem_cons, List.mem_append] <;>
      exact Or.inr (Or.inl hm)

/-- C10 witness: a session whose transcript holds an image-bearing user
turn; a later text-only request is sent to `qwen2.5:0.5b` and its
replayed messages still include the image turn. -/
theorem C10_model_and_replay_witness :
    (⟨"user", "look", some ["IMG"]⟩ : Multimodal.MsgM) ∈
      (Multimodal.stream_chat_mm
          (fun k => if k = "s1" then
            some [⟨"user", "look", some ["IMG"]⟩, ⟨"assistant", "a cat", none⟩] else none)
          ⟨"and now?", "s1", none⟩ .connectError).payload.messages ∧
    (Multimodal.stream_chat_mm
        (fun k => if k = "s1" then
          some [⟨"user", "look", some ["IMG"]⟩, ⟨"assistant", "a cat", none⟩] else none)
        ⟨"and now?", "s1", none⟩ .connectError).payload.model = "qwen2.5:0.5b" :=
  ⟨C10_model_and_replay.2
      (fun k => if k = "s1" then
        some [⟨"user", "look", some ["IMG"]⟩, ⟨"assistant", "a cat", none⟩] else none)
      ⟨"and now?", "s1", none⟩ .connectError ⟨"user", "look", some ["IMG"]⟩ (by decide),
   by decide⟩

/-- C3 witness: the connect-error path evaluated at a concrete request
against a store holding an unrelated session. -/
theorem C3_backend_unavailable_witness :
    (Main.stream_chat
        (fun k => if k = "other" then some [⟨"user", "hi"⟩] else none)
        ⟨"2+2?", "s1"⟩ .connectError).store "other" =
      (fun k => if k = "other" then some [⟨"user", "hi"⟩] else none : Main.Store) "other" :=
  (C3_backend_unavailable
      (fun k => if k = "other" then some [⟨"user", "hi"⟩] else none)
      ⟨"2+2?", "s1"⟩).2.2.2.2 "other" (by decide)

end AIChat
